import Mathlib

/-!
Shallow embedding of the Sparkify data-lake ETL job (etl.py).

The job reads two newline-delimited JSON inputs — song catalog records and
user activity log records — and derives five output tables: songs, artists,
users, time, songplays.  Tables are modelled as Lean lists of rows; Spark's
dropDuplicates (exact-duplicate removal) is modelled by List.dedup, the
inner join by a nested product filtered on the join key, and
monotonically_increasing_id by an arbitrary strictly monotone generator
applied to the row index.

Timestamps: the code builds start_time with
  udf(lambda x: datetime.fromtimestamp(x / 1000.0), TimestampType())
Spark's TimestampType holds microseconds since the Unix epoch, and Python's
datetime.fromtimestamp preserves the fractional second of its float argument
(rounded to the nearest microsecond).  For the magnitudes of the data's ts
values (below 2^52 microseconds) the float round-trip is exact at millisecond
inputs, so the conversion is embedded exactly as ts * 1000 microseconds.
Calendar functions (year, month, dayofmonth, hour, weekofyear, dayofweek)
are embedded in UTC via the standard civil-from-days algorithm; dayofweek
uses Spark's documented convention 1 = Sunday .. 7 = Saturday.
-/

/-- One catalog (song) JSON record as read by process_song_data.  Numeric
JSON values are modelled as exact rationals; the nullable coordinate fields
are options. -/
structure SongRecord where
  song_id : String
  title : String
  artist_id : String
  year : Int
  duration : Rat
  artist_name : String
  artist_location : String
  artist_latitude : Option Rat
  artist_longitude : Option Rat
deriving DecidableEq, Repr

/-- One activity (log) JSON record as read by process_log_data.  The ts
field is epoch milliseconds. -/
structure LogRecord where
  userId : String
  firstName : String
  lastName : String
  gender : String
  level : String
  page : String
  ts : Nat
  artist : String
  sessionId : Nat
  location : String
  userAgent : String
deriving DecidableEq, Repr

/-- Embedding of the get_timestamp udf: datetime.fromtimestamp(ts / 1000.0)
stored in a Spark TimestampType column, i.e. the epoch-millisecond value ts
becomes an epoch-microsecond timestamp.  The float division keeps the
fractional second (it does not truncate to whole seconds). -/
def get_timestamp (ts : Nat) : Nat := ts * 1000

/-- Whole epoch seconds of an epoch-microsecond timestamp. -/
def secOf (t : Nat) : Nat := t / 1000000

/-- Days since 1970-01-01 of an epoch-microsecond timestamp. -/
def daysOf (t : Nat) : Nat := secOf t / 86400

/-- Gregorian (year, month, day) of a day count since 1970-01-01, by the
standard civil-from-days algorithm, valid for all days ≥ 0 (dates from
1970-01-01 on). -/
def civilFromDays (days : Nat) : Nat × Nat × Nat :=
  let z := days + 719468
  let era := z / 146097
  let doe := z % 146097
  let yoe := (doe - doe / 1460 + doe / 36524 - doe / 146096) / 365
  let y := yoe + era * 400
  let doy := doe - (365 * yoe + yoe / 4 - yoe / 100)
  let mp := (5 * doy + 2) / 153
  let d := doy - (153 * mp + 2) / 5 + 1
  let m := if mp < 10 then mp + 3 else mp - 9
  (if m ≤ 2 then y + 1 else y, m, d)

/-- Day count since 1970-01-01 of a Gregorian (year, month, day), inverse of
civilFromDays, valid for dates from 1970-01-01 on. -/
def daysFromCivil (y m d : Nat) : Nat :=
  let y2 := if m ≤ 2 then y - 1 else y
  let era := y2 / 400
  let yoe := y2 % 400
  let mp := if 2 < m then m - 3 else m + 9
  let doy := (153 * mp + 2) / 5 + d - 1
  let doe := yoe * 365 + yoe / 4 - yoe / 100 + doy
  era * 146097 + doe - 719468

/-- Spark year() of an epoch-microsecond timestamp (UTC). -/
def yearOf (t : Nat) : Nat := (civilFromDays (daysOf t)).1

/-- Spark month() of an epoch-microsecond timestamp (UTC). -/
def monthOf (t : Nat) : Nat := (civilFromDays (daysOf t)).2.1

/-- Spark dayofmonth() of an epoch-microsecond timestamp (UTC). -/
def dayOf (t : Nat) : Nat := (civilFromDays (daysOf t)).2.2

/-- Spark hour() of an epoch-microsecond timestamp (UTC). -/
def hourOf (t : Nat) : Nat := secOf t % 86400 / 3600

/-- Spark weekofyear() of an epoch-microsecond timestamp: the ISO 8601 week
number, computed as the week-of-ISO-year of the Thursday of the
timestamp's week. -/
def weekOf (t : Nat) : Nat :=
  let days := daysOf t
  let thursday := days + 3 - (days + 3) % 7
  (thursday - daysFromCivil (civilFromDays thursday).1 1 1) / 7 + 1

/-- Spark dayofweek() of an epoch-microsecond timestamp: 1 = Sunday through
7 = Saturday (1970-01-01, day 0, was a Thursday, hence the offset 4). -/
def dayofweekOf (t : Nat) : Nat := (daysOf t + 4) % 7 + 1

/-- Row of the songs table. -/
structure SongsRow where
  song_id : String
  title : String
  artist_id : String
  year : Int
  duration : Rat
deriving DecidableEq, Repr

/-- Row of the artists table (after the renames). -/
structure ArtistsRow where
  artist_id : String
  name : String
  location : String
  latitude : Option Rat
  longitude : Option Rat
deriving DecidableEq, Repr

/-- Row of the users table (after the renames). -/
structure UsersRow where
  user_id : String
  first_name : String
  last_name : String
  gender : String
  level : String
deriving DecidableEq, Repr

/-- Row of the time table; start_time is an epoch-microsecond timestamp. -/
structure TimeRow where
  start_time : Nat
  hour : Nat
  day : Nat
  week : Nat
  month : Nat
  year : Nat
  weekday : Nat
deriving DecidableEq, Repr

/-- Row of the songplays table (after the renames). -/
structure SongplayRow where
  songplay_id : Nat
  start_time : Nat
  user_id : String
  level : String
  song_id : String
  artist_id : String
  session_id : Nat
  location : String
  user_agent : String
  month : Nat
  year : Nat
deriving DecidableEq, Repr

/-- Projection of a catalog record onto the songs-table columns. -/
def songProj (r : SongRecord) : SongsRow :=
  ⟨r.song_id, r.title, r.artist_id, r.year, r.duration⟩

/-- The songs table: project {song_id, title, artist_id, year, duration} and
drop exact-duplicate rows. -/
def songs_table (df : List SongRecord) : List SongsRow :=
  (df.map songProj).dedup

/-- Projection + renames of a catalog record onto the artists-table columns. -/
def artistProj (r : SongRecord) : ArtistsRow :=
  ⟨r.artist_id, r.artist_name, r.artist_location, r.artist_latitude, r.artist_longitude⟩

/-- The artists table: project and rename, then drop exact-duplicate rows. -/
def artists_table (df : List SongRecord) : List ArtistsRow :=
  (df.map artistProj).dedup

/-- The page filter at the top of process_log_data: keep only rows whose
page equals the NextSong action. -/
def filterNextSong (df : List LogRecord) : List LogRecord :=
  df.filter fun r => r.page == "NextSong"

/-- Projection + renames of an activity record onto the users-table columns. -/
def usersProj (r : LogRecord) : UsersRow :=
  ⟨r.userId, r.firstName, r.lastName, r.gender, r.level⟩

/-- The users table: filter to NextSong, project and rename, drop
exact-duplicate rows. -/
def users_table (df : List LogRecord) : List UsersRow :=
  ((filterNextSong df).map usersProj).dedup

/-- The time-table row derived from a start_time timestamp; every other
column is a function of start_time. -/
def timeRow (t : Nat) : TimeRow :=
  ⟨t, hourOf t, dayOf t, weekOf t, monthOf t, yearOf t, dayofweekOf t⟩

/-- The time table: filter to NextSong, derive start_time from ts, derive the
calendar columns, project, drop exact-duplicate rows. -/
def time_table (df : List LogRecord) : List TimeRow :=
  ((filterNextSong df).map fun r => timeRow (get_timestamp r.ts)).dedup

/-- The inner join of activity rows with reloaded catalog rows, keyed on
exact string equality between the catalog's artist_name and the activity
record's artist: all (log, song) pairs whose key matches. -/
def joinPairs (df : List LogRecord) (song_df : List SongRecord) :
    List (LogRecord × SongRecord) :=
  df.flatMap fun l => (song_df.filter fun s => s.artist_name == l.artist).map fun s => (l, s)

/-- The songplays projection + renames applied to one joined pair, given its
assigned songplay_id. -/
def songplayRow (id : Nat) (p : LogRecord × SongRecord) : SongplayRow :=
  let t := get_timestamp p.1.ts
  ⟨id, t, p.1.userId, p.1.level, p.2.song_id, p.2.artist_id, p.1.sessionId,
    p.1.location, p.1.userAgent, monthOf t, yearOf t⟩

/-- The songplays table: filter the activity rows to NextSong, inner-join
with the catalog rows on artist name, assign songplay_id by applying the
id generator g to each row's index (the embedding of
monotonically_increasing_id: g is strictly monotone but need not be
contiguous), then project and rename. -/
def songplays_table (g : Nat → Nat) (df : List LogRecord)
    (song_df : List SongRecord) : List SongplayRow :=
  ((joinPairs (filterNextSong df) song_df).enum).map fun p => songplayRow (g p.1) p.2

/-- Which of the five parquet outputs have been written. -/
structure Outputs where
  tbl_songs : Bool
  tbl_artists : Bool
  tbl_users : Bool
  tbl_time : Bool
  tbl_songplays : Bool
deriving DecidableEq, Repr

/-- The state before the job runs: nothing written. -/
def noOutputs : Outputs := ⟨false, false, false, false, false⟩

/-- Effect of process_song_data on the output location: it writes the songs
table and then the artists table. -/
def process_song_data_writes (fs : Outputs) : Outputs :=
  ⟨true, true, fs.tbl_users, fs.tbl_time, fs.tbl_songplays⟩

/-- Effect of process_log_data on the output location: it writes users, then
time, then songplays, in that order.  failAt k models an unhandled exception
raised just before the k-th write; the error value carries the outputs
already on disk at that point (nothing is rolled back or removed). -/
def process_log_data_writes (failAt : Option (Fin 3)) (fs : Outputs) :
    Except Outputs Outputs :=
  if failAt = some 0 then Except.error fs else
  let fs1 : Outputs := ⟨fs.tbl_songs, fs.tbl_artists, true, fs.tbl_time, fs.tbl_songplays⟩
  if failAt = some 1 then Except.error fs1 else
  let fs2 : Outputs := ⟨fs1.tbl_songs, fs1.tbl_artists, fs1.tbl_users, true, fs1.tbl_songplays⟩
  if failAt = some 2 then Except.error fs2 else
  Except.ok ⟨fs2.tbl_songs, fs2.tbl_artists, fs2.tbl_users, fs2.tbl_time, true⟩

/-- The entry point main: process_song_data, then process_log_data, in
sequence with no shared transactional boundary.  An error from the event
transform terminates the run with whatever outputs are on disk. -/
def mainRun (failAt : Option (Fin 3)) : Except Outputs Outputs :=
  process_log_data_writes failAt (process_song_data_writes noOutputs)

/-! Concrete records used in witnesses and counterexamples. -/

/-- Catalog record from the concrete join scenario of the spec. -/
def drDreSong : SongRecord :=
  ⟨"S1", "T1", "A1", 2000, 123.4, "Dr. Dre", "LA", none, none⟩

/-- A second catalog record by the same artist. -/
def drDreSong2 : SongRecord :=
  ⟨"S2", "T2", "A1", 2001, 200.5, "Dr. Dre", "LA", none, none⟩

/-- Activity record whose artist exactly matches drDreSong. -/
def drDreLog : LogRecord :=
  ⟨"U1", "F", "L", "M", "free", "NextSong", 1541440796796, "Dr. Dre", 1, "LA", "x"⟩

/-- The same activity record with a case-mismatched artist string. -/
def caseMismatchLog : LogRecord :=
  ⟨"U1", "F", "L", "M", "free", "NextSong", 1541440796796, "dr. dre", 1, "LA", "x"⟩

/-- Activity record for user U1 at level free. -/
def levelFreeLog : LogRecord :=
  ⟨"U1", "F", "L", "M", "free", "NextSong", 1541440796796, "Dr. Dre", 1, "LA", "x"⟩

/-- Activity record for the same user U1 but at level paid. -/
def levelPaidLog : LogRecord :=
  ⟨"U1", "F", "L", "M", "paid", "NextSong", 1541441796796, "Dr. Dre", 2, "LA", "x"⟩

/-- Activity record on a page other than NextSong. -/
def homePageLog : LogRecord :=
  ⟨"U2", "G", "K", "F", "free", "Home", 1541440796796, "Nobody", 3, "NY", "y"⟩

/-- Helper: mapping a function of the payload over an enumerated list ignores
the indices. -/
theorem map_enum_snd {α β : Type} (xs : List α) (f : α → β) :
    (xs.enum.map fun p => f p.2) = xs.map f := by
  rw [show (fun p : Nat × α => f p.2) = f ∘ Prod.snd from rfl, ← List.map_map,
    List.enum_map_snd]

/-- C1: with exactly the Dr. Dre catalog record and the matching activity
record, the songplays table has exactly one row, joining song_id S1 with
user_id U1; with the case-mismatched artist string it has no rows, because
the inner join key is exact string equality between artist_name and artist. -/
theorem songplays_exact_artist_match (g : Nat → Nat) :
    ((songplays_table g [drDreLog] [drDreSong]).map fun r => (r.song_id, r.user_id))
        = [("S1", "U1")]
      ∧ songplays_table g [caseMismatchLog] [drDreSong] = [] :=
  ⟨rfl, rfl⟩

/-- C2 counterexample: for ts = 1541440796796 the derived start_time is not
the whole-second timestamp 1541440796000000 microseconds; the conversion
keeps the 796-millisecond fractional part rather than truncating. -/
theorem start_time_not_whole_seconds :
    get_timestamp 1541440796796 ≠ 1541440796 * 1000000 := by
  decide

/-- C2 (amended): start_time interprets ts as epoch milliseconds and keeps
millisecond precision (epoch second 1541440796 plus 796 ms); the derived
year is 2018 and month is 11; in general the whole-second part is ts / 1000. -/
theorem start_time_milliseconds :
    get_timestamp 1541440796796 = 1541440796 * 1000000 + 796000
      ∧ secOf (get_timestamp 1541440796796) = 1541440796
      ∧ yearOf (get_timestamp 1541440796796) = 2018
      ∧ monthOf (get_timestamp 1541440796796) = 11
      ∧ ∀ ts : Nat, secOf (get_timestamp ts) = ts / 1000 := by
  refine ⟨by decide, by decide, by decide, by decide, fun ts => ?_⟩
  show ts * 1000 / 1000000 = ts / 1000
  rw [show (1000000 : Nat) = 1000 * 1000 from rfl, ← Nat.div_div_eq_div_mul,
    Nat.mul_div_cancel ts (by decide)]

/-- C3 counterexample: two NextSong records with the same userId but a
different level survive the exact-duplicate dedup as two rows, so user_id is
not unique in the users table. -/
theorem users_table_user_id_not_unique :
    ¬ (users_table [levelFreeLog, levelPaidLog]).Pairwise
      fun a b => a.user_id ≠ b.user_id := by
  decide

/-- C3 (amended): the dedup removes exact-duplicate rows only, so user_id is
unique in the users table provided every two filtered records sharing a
userId agree on all projected columns. -/
theorem users_table_user_id_unique (df : List LogRecord)
    (h : ∀ r1 ∈ filterNextSong df, ∀ r2 ∈ filterNextSong df,
      r1.userId = r2.userId → usersProj r1 = usersProj r2) :
    (users_table df).Pairwise fun a b => a.user_id ≠ b.user_id := by
  have hnd : (users_table df).Nodup := List.nodup_dedup _
  refine hnd.imp_of_mem ?_
  intro a b ha hb hne heq
  obtain ⟨r1, hr1, rfl⟩ := List.mem_map.mp (List.mem_dedup.mp ha)
  obtain ⟨r2, hr2, rfl⟩ := List.mem_map.mp (List.mem_dedup.mp hb)
  exact hne (h r1 hr1 r2 hr2 heq)

/-- Witness for C3 (amended) at a concrete single-record input. -/
theorem users_table_user_id_unique_witness :
    (∀ r1 ∈ filterNextSong [levelFreeLog], ∀ r2 ∈ filterNextSong [levelFreeLog],
      r1.userId = r2.userId → usersProj r1 = usersProj r2)
    ∧ (users_table [levelFreeLog]).Pairwise fun a b => a.user_id ≠ b.user_id :=
  ⟨by decide, users_table_user_id_unique [levelFreeLog] (by decide)⟩

/-- C4: activity records whose page is not NextSong contribute nothing to
the users, time, or songplays tables: appending any batch of such records
leaves all three tables unchanged. -/
theorem non_nextsong_excluded (df junk : List LogRecord) (g : Nat → Nat)
    (song_df : List SongRecord) (h : ∀ r ∈ junk, r.page ≠ "NextSong") :
    users_table (df ++ junk) = users_table df
      ∧ time_table (df ++ junk) = time_table df
      ∧ songplays_table g (df ++ junk) song_df = songplays_table g df song_df := by
  have hj : junk.filter (fun r => r.page == "NextSong") = [] := by
    rw [List.filter_eq_nil_iff]
    intro a ha
    simpa using h a ha
  have hf : filterNextSong (df ++ junk) = filterNextSong df := by
    unfold filterNextSong
    rw [List.filter_append, hj, List.append_nil]
  exact ⟨by rw [users_table, users_table, hf], by rw [time_table, time_table, hf],
    by rw [songplays_table, songplays_table, hf]⟩

/-- Witness for C4 at concrete inputs. -/
theorem non_nextsong_excluded_witness :
    (∀ r ∈ [homePageLog], r.page ≠ "NextSong")
    ∧ (users_table ([drDreLog] ++ [homePageLog]) = users_table [drDreLog]
      ∧ time_table ([drDreLog] ++ [homePageLog]) = time_table [drDreLog]
      ∧ songplays_table (fun i => i) ([drDreLog] ++ [homePageLog]) [drDreSong]
          = songplays_table (fun i => i) [drDreLog] [drDreSong]) :=
  ⟨by decide, non_nextsong_excluded [drDreLog] [homePageLog] (fun i => i) [drDreSong]
    (by decide)⟩

/-- C5: any value tuple hit by at least one catalog record appears exactly
once in the songs table: projection followed by exact-duplicate removal
collapses all duplicates to one row. -/
theorem songs_table_dedup_unique (df : List SongRecord) (t : SongsRow)
    (h : ∃ r ∈ df, songProj r = t) : (songs_table df).count t = 1 := by
  have ht : t ∈ df.map songProj := by
    obtain ⟨r, hr, hrt⟩ := h
    exact List.mem_map.mpr ⟨r, hr, hrt⟩
  unfold songs_table
  rw [List.count_dedup, if_pos ht]

/-- Witness for C5 at a concrete duplicated catalog record. -/
theorem songs_table_dedup_unique_witness :
    (∃ r ∈ [drDreSong, drDreSong], songProj r = songProj drDreSong)
    ∧ (songs_table [drDreSong, drDreSong]).count (songProj drDreSong) = 1 :=
  ⟨⟨drDreSong, by simp, rfl⟩,
    songs_table_dedup_unique [drDreSong, drDreSong] (songProj drDreSong)
      ⟨drDreSong, by simp, rfl⟩⟩

/-- C6: with a strictly monotone id generator (the embedding of
monotonically_increasing_id), the songplay_id column is strictly increasing
in row order, hence pairwise distinct, for every input. -/
theorem songplay_id_distinct (g : Nat → Nat) (hg : StrictMono g)
    (df : List LogRecord) (song_df : List SongRecord) :
    ((songplays_table g df song_df).map fun r => r.songplay_id).Pairwise (· < ·)
      ∧ ((songplays_table g df song_df).map fun r => r.songplay_id).Nodup := by
  have key : ((songplays_table g df song_df).map fun r => r.songplay_id)
      = (List.range (joinPairs (filterNextSong df) song_df).length).map g := by
    unfold songplays_table
    rw [List.map_map]
    rw [show ((fun r : SongplayRow => r.songplay_id)
        ∘ fun p : Nat × (LogRecord × SongRecord) => songplayRow (g p.1) p.2)
      = (g ∘ Prod.fst) from rfl]
    rw [← List.map_map, List.enum_map_fst]
  rw [key]
  have hlt : ((List.range (joinPairs (filterNextSong df) song_df).length).map g).Pairwise
      (· < ·) :=
    (List.pairwise_lt_range _).map g (fun a b hab => hg hab)
  exact ⟨hlt, hlt.imp Nat.ne_of_lt⟩

/-- Witness for C6 with a sparse strictly monotone generator and two joined
rows. -/
theorem songplay_id_distinct_witness :
    StrictMono (fun i : Nat => 2 * i + 7)
      ∧ (((songplays_table (fun i => 2 * i + 7) [drDreLog, levelPaidLog]
            [drDreSong]).map fun r => r.songplay_id).Pairwise (· < ·)
        ∧ ((songplays_table (fun i => 2 * i + 7) [drDreLog, levelPaidLog]
            [drDreSong]).map fun r => r.songplay_id).Nodup) := by
  have hmono : StrictMono (fun i : Nat => 2 * i + 7) := by
    intro a b hab
    dsimp only
    omega
  exact ⟨hmono, songplay_id_distinct _ hmono [drDreLog, levelPaidLog] [drDreSong]⟩

/-- C7: every column of a time-table row is a function of its start_time, so
after the exact-duplicate dedup the start_time values are pairwise distinct. -/
theorem time_table_start_time_unique (df : List LogRecord) :
    (time_table df).Pairwise fun a b => a.start_time ≠ b.start_time := by
  have hmem : ∀ a ∈ time_table df, a = timeRow a.start_time := by
    intro a ha
    obtain ⟨r, _, rfl⟩ := List.mem_map.mp (List.mem_dedup.mp ha)
    rfl
  have hnd : (time_table df).Nodup := List.nodup_dedup _
  refine hnd.imp_of_mem ?_
  intro a b ha hb hne heq
  exact hne (by rw [hmem a ha, hmem b hb, heq])

/-- C8: the entry point runs the catalog transform and then the event
transform in sequence with no transactional boundary: a failure anywhere in
the event transform terminates the run with the songs and artists outputs
still written (and the songplays output never written), and a full run
writes all five outputs. -/
theorem catalog_outputs_survive_event_failure :
    mainRun none = Except.ok ⟨true, true, true, true, true⟩
      ∧ ∀ k : Fin 3, ∃ fs : Outputs, mainRun (some k) = Except.error fs
          ∧ fs.tbl_songs = true ∧ fs.tbl_artists = true ∧ fs.tbl_songplays = false := by
  refine ⟨rfl, fun k => ?_⟩
  fin_cases k <;> exact ⟨_, rfl, rfl, rfl, rfl⟩

/-- C9: a NextSong activity record whose artist matches N catalog records
yields exactly N songplay rows, one per matching catalog record, each
carrying that record's song_id and artist_id. -/
theorem songplays_one_row_per_matching_song (g : Nat → Nat) (l : LogRecord)
    (song_df : List SongRecord) (h : l.page = "NextSong") :
    (songplays_table g [l] song_df).length
        = (song_df.filter fun s => s.artist_name == l.artist).length
      ∧ ((songplays_table g [l] song_df).map fun r => (r.song_id, r.artist_id))
        = (song_df.filter fun s => s.artist_name == l.artist).map
            fun s => (s.song_id, s.artist_id) := by
  have hf : filterNextSong [l] = [l] := by
    simp [filterNextSong, h]
  have hj : joinPairs (filterNextSong [l]) song_df
      = (song_df.filter fun s => s.artist_name == l.artist).map fun s => (l, s) := by
    rw [hf]
    simp [joinPairs]
  constructor
  · unfold songplays_table
    rw [List.length_map, List.enum_length, hj, List.length_map]
  · unfold songplays_table
    rw [hj, List.map_map]
    rw [show ((fun r : SongplayRow => (r.song_id, r.artist_id))
        ∘ fun p : Nat × (LogRecord × SongRecord) => songplayRow (g p.1) p.2)
      = (fun p : Nat × (LogRecord × SongRecord) => (p.2.2.song_id, p.2.2.artist_id))
      from rfl]
    rw [map_enum_snd ((song_df.filter fun s => s.artist_name == l.artist).map
      fun s => (l, s)) (fun q : LogRecord × SongRecord => (q.2.song_id, q.2.artist_id))]
    rw [List.map_map]
    rfl

/-- Witness for C9: Dr. Dre has two catalog songs, so his one activity
record yields two songplay rows. -/
theorem songplays_one_row_per_matching_song_witness :
    drDreLog.page = "NextSong"
      ∧ ((songplays_table (fun i => i) [drDreLog] [drDreSong, drDreSong2]).length
          = ([drDreSong, drDreSong2].filter
              fun s => s.artist_name == drDreLog.artist).length
        ∧ ((songplays_table (fun i => i) [drDreLog] [drDreSong, drDreSong2]).map
            fun r => (r.song_id, r.artist_id))
          = ([drDreSong, drDreSong2].filter
              fun s => s.artist_name == drDreLog.artist).map
              fun s => (s.song_id, s.artist_id)) :=
  ⟨rfl, songplays_one_row_per_matching_song (fun i => i) drDreLog
    [drDreSong, drDreSong2] rfl⟩

/-- C10: the derived weekday column is always between 1 and 7, and the
convention is 1 = Sunday (1970-01-04, ts 259200000 ms) through 7 = Saturday
(1970-01-03, ts 172800000 ms). -/
theorem weekday_range_convention :
    (∀ t : Nat, 1 ≤ (timeRow t).weekday ∧ (timeRow t).weekday ≤ 7)
      ∧ (timeRow (get_timestamp 259200000)).weekday = 1
      ∧ (timeRow (get_timestamp 172800000)).weekday = 7 := by
  refine ⟨fun t => ?_, by decide, by decide⟩
  show 1 ≤ (daysOf t + 4) % 7 + 1 ∧ (daysOf t + 4) % 7 + 1 ≤ 7
  have := Nat.mod_lt (daysOf t + 4) (show 0 < 7 by decide)
  omega
